import Mathlib

/-!
Shallow embedding of `udp_json_to_sbs_kalman.py` (the Kalman-filter UDP→SBS
relay that is the core of this repository), together with theorems settling
the specified properties.

Modelling conventions:
* Python floats are modelled as exact reals (`ℝ`).  Python's builtin
  `round` (banker's rounding: ties go to the nearest even integer) is
  modelled by `pyRound`; `int(round x)` is exactly `pyRound x` since the
  result of `round` on a float is integral.
* `numpy` vectors/matrices become Mathlib `Matrix`/`Fin n → ℝ` values; the
  source's 6×1 column vector `state` is modelled as `Fin 6 → ℝ` and `F @
  state` as `Matrix.mulVec`.
* In-place mutation of a `KalmanFilterLocal` object becomes explicit state
  passing: each method returns the updated record.
* `np.linalg.inv` raises `LinAlgError` on a singular matrix; a method that
  can raise returns `Except σ σ`, where the `error` payload is the state of
  the mutated object at the moment the exception escapes (Python leaves the
  partial mutations in place).
* `time.time()` is an external clock; every call site receives the sampled
  value as an explicit parameter.  The two samples taken while handling a
  single inbound record (lines 184 and 62 of the source) are modelled as
  the same instant.
* `time.strftime`/`time.localtime` calendar formatting is environment
  dependent; the two formatted strings are passed to the encoder as
  parameters (the source uses the same pair for "generated" and "logged").
-/

namespace SBSK

noncomputable section

open Real

/-- Python's builtin `round` on a float: round half to even. -/
def pyRound (x : ℝ) : ℤ :=
  if Int.fract x = 1 / 2 then (if Even ⌊x⌋ then ⌊x⌋ else ⌊x⌋ + 1) else round x

/-- Evaluation rule for `pyRound` away from ties. -/
theorem pyRound_eq {x : ℝ} {n : ℤ} (h1 : (n : ℝ) - 1 / 2 < x) (h2 : x < (n : ℝ) + 1 / 2) :
    pyRound x = n := by
  have hfr : Int.fract x ≠ 1 / 2 := by
    intro h
    have hx : x = (⌊x⌋ : ℝ) + 1 / 2 := by
      have := Int.self_sub_floor x
      rw [h] at this
      linarith
    have hlt : (n : ℝ) - 1 < (⌊x⌋ : ℝ) := by linarith
    have hlt' : (⌊x⌋ : ℝ) < (n : ℝ) := by linarith
    have h1' : n - 1 < ⌊x⌋ := by exact_mod_cast hlt
    have h2' : ⌊x⌋ < n := by exact_mod_cast hlt'
    omega
  rw [pyRound, if_neg hfr, round_eq]
  rw [Int.floor_eq_iff]
  constructor
  · linarith
  · linarith

/-- `math.radians`. -/
def radians (d : ℝ) : ℝ := d * π / 180

/-- `math.degrees`. -/
def degrees (r : ℝ) : ℝ := r * 180 / π

/-- `math.hypot`. -/
def hypot (a b : ℝ) : ℝ := Real.sqrt (a ^ 2 + b ^ 2)

/-- `math.atan2 y x` (C library semantics, as exposed by Python). -/
def atan2 (y x : ℝ) : ℝ :=
  if 0 < x then Real.arctan (y / x)
  else if x < 0 then
    (if 0 ≤ y then Real.arctan (y / x) + π else Real.arctan (y / x) - π)
  else (if 0 < y then π / 2 else if y < 0 then -(π / 2) else 0)

/-- `latlon_to_xy` (source lines 20–28): equirectangular forward projection. -/
def latlon_to_xy (lat lon ref_lat ref_lon : ℝ) : ℝ × ℝ :=
  let m_per_deg_lon := 111320 * Real.cos (radians ref_lat)
  let m_per_deg_lat := (110574 : ℝ)
  ((lon - ref_lon) * m_per_deg_lon, (lat - ref_lat) * m_per_deg_lat)

/-- `xy_to_latlon` (source lines 30–37): inverse projection. -/
def xy_to_latlon (x y ref_lat ref_lon : ℝ) : ℝ × ℝ :=
  let m_per_deg_lon := 111320 * Real.cos (radians ref_lat)
  let m_per_deg_lat := (110574 : ℝ)
  (y / m_per_deg_lat + ref_lat, x / m_per_deg_lon + ref_lon)

/-- C5: forward projection followed by the inverse projection about the same
reference point returns the original coordinates exactly (hence within any
floating-point tolerance), provided `cos ref_lat ≠ 0`. -/
theorem projector_round_trip (lat lon ref_lat ref_lon : ℝ)
    (h : Real.cos (radians ref_lat) ≠ 0) :
    xy_to_latlon (latlon_to_xy lat lon ref_lat ref_lon).1
      (latlon_to_xy lat lon ref_lat ref_lon).2 ref_lat ref_lon = (lat, lon) := by
  have h110574 : (110574 : ℝ) ≠ 0 := by norm_num
  have h111320 : (111320 : ℝ) * Real.cos (radians ref_lat) ≠ 0 := by
    exact mul_ne_zero (by norm_num) h
  unfold xy_to_latlon latlon_to_xy
  simp only
  refine Prod.ext ?_ ?_
  · field_simp
  · field_simp

/-- C5 witness: concrete round trip at reference (0, 0). -/
theorem projector_round_trip_witness :
    xy_to_latlon (latlon_to_xy 1 2 0 0).1 (latlon_to_xy 1 2 0 0).2 0 0 = (1, 2) :=
  projector_round_trip 1 2 0 0 (by simp [radians])

/-- The per-aircraft Kalman filter object (source lines 42–100).  The numpy
arrays become Mathlib matrices/vectors; `Q`/`R` are stored per instance as in
`__init__`. -/
structure KalmanFilterLocal where
  ref_lat : ℝ
  ref_lon : ℝ
  icao : String
  callsign : String
  squawk : String
  state : Fin 6 → ℝ
  P : Matrix (Fin 6) (Fin 6) ℝ
  Q : Matrix (Fin 6) (Fin 6) ℝ
  R : Matrix (Fin 3) (Fin 3) ℝ
  last_time : ℝ

/-- The state-transition matrix built inside `predict` (source lines 66–73). -/
def F (dt : ℝ) : Matrix (Fin 6) (Fin 6) ℝ :=
  Matrix.of
    ![![1, 0, 0, dt, 0, 0],
      ![0, 1, 0, 0, dt, 0],
      ![0, 0, 1, 0, 0, dt],
      ![0, 0, 0, 1, 0, 0],
      ![0, 0, 0, 0, 1, 0],
      ![0, 0, 0, 0, 0, 1]]

/-- The observation matrix built inside `update` (source lines 90–94). -/
def H : Matrix (Fin 3) (Fin 6) ℝ :=
  Matrix.of
    ![![1, 0, 0, 0, 0, 0],
      ![0, 1, 0, 0, 0, 0],
      ![0, 0, 1, 0, 0, 0]]

/-- `KalmanFilterLocal.__init__` (source lines 43–62).  `now` is the value of
the `time.time()` call on line 62. -/
def KalmanFilterLocal.init (lat lon alt_m vx vy v_alt : ℝ)
    (icao callsign squawk : String) (now : ℝ) : KalmanFilterLocal :=
  let ref_lat := lat
  let ref_lon := lon
  let xy := latlon_to_xy lat lon ref_lat ref_lon
  { ref_lat := ref_lat
    ref_lon := ref_lon
    icao := icao
    callsign := callsign
    squawk := squawk
    state := ![xy.1, xy.2, alt_m, vx, vy, v_alt]
    P := (100 : ℝ) • 1
    Q := (0.1 : ℝ) • 1
    R := (10 : ℝ) • 1
    last_time := now }

/-- `KalmanFilterLocal.predict` (source lines 64–77). -/
def KalmanFilterLocal.predict (kf : KalmanFilterLocal) (dt : ℝ) : KalmanFilterLocal :=
  { kf with
    state := (F dt).mulVec kf.state
    P := F dt * kf.P * (F dt).transpose + kf.Q
    last_time := kf.last_time + dt }

/-- The guarded prediction at the head of `update` (source lines 86–89):
`dt = current_time - self.last_time; if dt > 0: self.predict(dt)`. -/
def KalmanFilterLocal.update_base (kf : KalmanFilterLocal) (current_time : ℝ) :
    KalmanFilterLocal :=
  let dt := current_time - kf.last_time
  if 0 < dt then kf.predict dt else kf

/-- `KalmanFilterLocal.update` (source lines 79–100).  `np.linalg.inv` raises
`LinAlgError` on a singular innovation covariance; that exception is modelled
by the `error` branch, whose payload is the object state at the moment the
exception escapes (the guarded predict has already been applied in place). -/
def KalmanFilterLocal.update (kf : KalmanFilterLocal) (lat lon alt_m current_time : ℝ) :
    Except KalmanFilterLocal KalmanFilterLocal :=
  let z_xy := latlon_to_xy lat lon kf.ref_lat kf.ref_lon
  let z : Fin 3 → ℝ := ![z_xy.1, z_xy.2, alt_m]
  let kf1 := kf.update_base current_time
  let y := z - H.mulVec kf1.state
  let S := H * kf1.P * H.transpose + kf1.R
  if S.det = 0 then .error kf1
  else
    let K := kf1.P * H.transpose * S⁻¹
    .ok { kf1 with
          state := kf1.state + K.mulVec y
          P := (1 - K * H) * kf1.P
          last_time := current_time }

/-- Altitude field conversion (source line 120): `int(round(alt * 3.28084))`. -/
def alt_ft (alt : ℝ) : ℤ := pyRound (alt * 3.28084)

/-- Ground-speed field conversion (source lines 122–123). -/
def speed_knots (vx vy : ℝ) : ℤ := pyRound (hypot vx vy * 1.94384)

/-- Track-angle field conversion (source lines 126–129). -/
def track_int (vx vy : ℝ) : ℤ :=
  let track_deg := degrees (atan2 vx vy)
  pyRound (if track_deg < 0 then track_deg + 360 else track_deg)

/-- Vertical-rate field conversion (source line 131). -/
def vr_ft_min (v_alt : ℝ) : ℤ := pyRound (v_alt * 196.850394)

/-- Python `str.upper` (ASCII model; identifiers here are hex strings). -/
def pyUpper (s : String) : String := String.mk (s.data.map Char.toUpper)

/-- Python `str.strip`: drop leading and trailing whitespace. -/
def pyStrip (s : String) : String :=
  String.mk (((s.data.dropWhile Char.isWhitespace).reverse.dropWhile Char.isWhitespace).reverse)

/-- Zero-pad a natural number to five digits (for the fractional part of a
`%.5f` format). -/
def pad5 (n : ℕ) : String :=
  let s := toString n
  String.mk (List.replicate (5 - s.length) '0') ++ s

/-- Python `f"{x:.5f}"`: fixed five-decimal formatting, rounding half to
even, with a sign for negative values (including negative zero). -/
def fmt5 (x : ℝ) : String :=
  let q := pyRound (x * 100000)
  let sign := if q < 0 ∨ (q = 0 ∧ x < 0) then "-" else ""
  sign ++ toString (q.natAbs / 100000) ++ "." ++ pad5 (q.natAbs % 100000)

/-- The 22-entry field list built in `generate_sbs_from_filter` (source lines
138–162), as a function of the (already predicted) filter state.  `date_str`
and `time_str` are the two `time.strftime` results of lines 134–136. -/
def sbs_fields (kf : KalmanFilterLocal) (date_str time_str : String) : List String :=
  let x := kf.state 0
  let y := kf.state 1
  let alt := kf.state 2
  let vx := kf.state 3
  let vy := kf.state 4
  let v_alt := kf.state 5
  let latlon := xy_to_latlon x y kf.ref_lat kf.ref_lon
  [ "MSG", "3", "", "",
    pyUpper kf.icao, "",
    date_str, time_str, date_str, time_str,
    pyStrip kf.callsign,
    toString (alt_ft alt),
    toString (speed_knots vx vy),
    toString (track_int vx vy),
    fmt5 latlon.1, fmt5 latlon.2,
    toString (vr_ft_min v_alt),
    kf.squawk,
    "0", "0", "0", "0" ]

/-- `generate_sbs_from_filter` (source lines 105–163).  The function first
applies the guarded predict of lines 111–113 — mutating the filter — and then
joins the 22 fields with commas; the model returns the line together with the
mutated filter. -/
def generate_sbs_from_filter (kf : KalmanFilterLocal) (current_time : ℝ)
    (date_str time_str : String) : String × KalmanFilterLocal :=
  let dt := current_time - kf.last_time
  let kf1 := if 0 < dt then kf.predict dt else kf
  (String.intercalate "," (sbs_fields kf1 date_str time_str), kf1)

/-- One track's contribution in `prediction_thread` (source lines 243–244):
the generated line with a single `"\n"` appended. -/
def prediction_encode (kf : KalmanFilterLocal) (current_time : ℝ)
    (date_str time_str : String) : String × KalmanFilterLocal :=
  let r := generate_sbs_from_filter kf current_time date_str time_str
  (r.1 ++ "\n", r.2)

/-- The transition matrix at `dt = 0` is the identity. -/
theorem F_zero : F 0 = 1 := by
  ext i j
  fin_cases i <;> fin_cases j <;> rfl

/-- A concrete freshly created filter (used as a concrete input below). -/
def kf0 : KalmanFilterLocal := KalmanFilterLocal.init 0 0 0 0 0 0 "TEST" "" "" 5

/-- C2 counterexample: `predict(0)` does not leave the covariance unchanged —
on a freshly created filter the (0,0) entry grows by the process noise 0.1,
far beyond any floating-point tolerance such as 1e-6. -/
theorem predict_zero_changes_covariance :
    |(kf0.predict 0).P 0 0 - kf0.P 0 0| > 1 / 1000000 := by
  have h : (kf0.predict 0).P 0 0 = kf0.P 0 0 + 1 / 10 := by
    show (F 0 * kf0.P * (F 0).transpose + kf0.Q) 0 0 = kf0.P 0 0 + 1 / 10
    rw [F_zero]
    simp [kf0, KalmanFilterLocal.init, Matrix.one_apply]
    norm_num
  rw [h]
  rw [add_sub_cancel_left, abs_of_pos (by norm_num : (0 : ℝ) < 1 / 10)]
  norm_num

/-- C2 (amended): `predict(0)` leaves the state vector unchanged but adds the
process noise `Q` to the covariance; at both call sites (`update`, lines
86–89, and `generate_sbs_from_filter`, lines 111–113) the prediction is
skipped whenever `dt ≤ 0`, leaving the filter entirely unchanged. -/
theorem predict_zero_amended (kf : KalmanFilterLocal) (t : ℝ) :
    (kf.predict 0).state = kf.state ∧
    (kf.predict 0).P = kf.P + kf.Q ∧
    (t ≤ kf.last_time →
      kf.update_base t = kf ∧
      generate_sbs_from_filter kf t "d" "s" =
        (String.intercalate "," (sbs_fields kf "d" "s"), kf)) := by
  refine ⟨?_, ?_, ?_⟩
  · show (F 0).mulVec kf.state = kf.state
    rw [F_zero, Matrix.one_mulVec]
  · show F 0 * kf.P * (F 0).transpose + kf.Q = kf.P + kf.Q
    rw [F_zero]
    simp
  · intro h
    have hdt : ¬ (0 < t - kf.last_time) := by linarith
    constructor
    · simp [KalmanFilterLocal.update_base, hdt]
    · simp [generate_sbs_from_filter, hdt]

/-- C2 witness: the amended statement instantiated at the concrete filter
`kf0` and `t = 5` (no elapsed time). -/
theorem predict_zero_amended_witness :
    (kf0.predict 0).state = kf0.state ∧
    (kf0.predict 0).P = kf0.P + kf0.Q ∧
    kf0.update_base 5 = kf0 ∧
    generate_sbs_from_filter kf0 5 "d" "s" =
      (String.intercalate "," (sbs_fields kf0 "d" "s"), kf0) := by
  have h := predict_zero_amended kf0 5
  have hle : (5 : ℝ) ≤ kf0.last_time := by
    simp [kf0, KalmanFilterLocal.init]
  exact ⟨h.1, h.2.1, (h.2.2 hle).1, (h.2.2 hle).2⟩

/-- C10: `predict(dt)` advances `last_time` by exactly `dt` (line 76), so the
guarded predicts at both call sites cover contiguous, non-overlapping time
intervals.  Consequently, encoding a track at tick time `t > last_time`
mutates the filter in place — its state, covariance and `last_time` all take
the predicted values, with `last_time = t` — and a measurement update at a
later time `t'` predicts only over `dt = t' - t`, i.e. from the last
prediction tick, not from the last measurement. -/
theorem predict_advances_clock (kf : KalmanFilterLocal) (dt t t' : ℝ)
    (d s : String) (ht : kf.last_time < t) (ht' : t < t') :
    (kf.predict dt).last_time = kf.last_time + dt ∧
    (generate_sbs_from_filter kf t d s).2 = kf.predict (t - kf.last_time) ∧
    (generate_sbs_from_filter kf t d s).2.last_time = t ∧
    (generate_sbs_from_filter kf t d s).2.update_base t' =
      ((generate_sbs_from_filter kf t d s).2).predict (t' - t) := by
  have hdt : 0 < t - kf.last_time := by linarith
  have hgen : (generate_sbs_from_filter kf t d s).2 = kf.predict (t - kf.last_time) := by
    simp [generate_sbs_from_filter, hdt]
  have hlast : (generate_sbs_from_filter kf t d s).2.last_time = t := by
    rw [hgen]
    show kf.last_time + (t - kf.last_time) = t
    ring
  refine ⟨rfl, hgen, hlast, ?_⟩
  rw [KalmanFilterLocal.update_base, hlast]
  have hdt' : 0 < t' - t := by linarith
  simp [hdt']

/-- C10 witness: the theorem instantiated at the concrete filter `kf0`
(created at time 5) with tick time 6 and measurement time 7. -/
theorem predict_advances_clock_witness :
    (kf0.predict 1).last_time = kf0.last_time + 1 ∧
    (generate_sbs_from_filter kf0 6 "d" "s").2 = kf0.predict (6 - kf0.last_time) ∧
    (generate_sbs_from_filter kf0 6 "d" "s").2.last_time = 6 ∧
    (generate_sbs_from_filter kf0 6 "d" "s").2.update_base 7 =
      ((generate_sbs_from_filter kf0 6 "d" "s").2).predict (7 - 6) := by
  have hlt : kf0.last_time < 6 := by
    simp [kf0, KalmanFilterLocal.init]
    norm_num
  exact predict_advances_clock kf0 1 6 7 "d" "s" hlt (by norm_num)

/-- Entry access for the sixth component of a vector literal (companion to
Mathlib's `Matrix.cons_val_four`). -/
theorem cons_val_five {α : Type*} {m : ℕ} (x : α) (u : Fin m.succ.succ.succ.succ.succ → α) :
    Matrix.vecCons x u 5 =
      Matrix.vecHead (Matrix.vecTail (Matrix.vecTail (Matrix.vecTail (Matrix.vecTail u)))) :=
  rfl

/-- A covariance value that makes the innovation covariance singular after a
one-second predict (`diag(-10.1, -10.1, -10.1, 0, 0, 0)`). -/
def PSing : Matrix (Fin 6) (Fin 6) ℝ :=
  Matrix.of
    ![![-10.1, 0, 0, 0, 0, 0],
      ![0, -10.1, 0, 0, 0, 0],
      ![0, 0, -10.1, 0, 0, 0],
      ![0, 0, 0, 0, 0, 0],
      ![0, 0, 0, 0, 0, 0],
      ![0, 0, 0, 0, 0, 0]]

/-- `PSing` propagated through `predict(1)`: `F·P·Fᵀ + Q`. -/
def PSing1 : Matrix (Fin 6) (Fin 6) ℝ :=
  Matrix.of
    ![![(-10 : ℝ), 0, 0, 0, 0, 0],
      ![0, -10, 0, 0, 0, 0],
      ![0, 0, -10, 0, 0, 0],
      ![0, 0, 0, 0.1, 0, 0],
      ![0, 0, 0, 0, 0.1, 0],
      ![0, 0, 0, 0, 0, 0.1]]

/-- A track whose covariance makes the innovation covariance singular.
(Such a `P` cannot arise from normal input — as the spec notes — but the
robustness requirement is about exactly this case.) -/
def kfSing : KalmanFilterLocal :=
  { KalmanFilterLocal.init 0 0 0 0 0 0 "BAD" "" "" 0 with P := PSing }

set_option maxHeartbeats 2000000 in
/-- Covariance of `kfSing` after `predict(1)`. -/
theorem kfSing_predict_P : (kfSing.predict 1).P = PSing1 := by
  show F 1 * kfSing.P * (F 1).transpose + kfSing.Q = PSing1
  have hP : kfSing.P = PSing := rfl
  have hQ : kfSing.Q = (0.1 : ℝ) • 1 := rfl
  rw [hP, hQ]
  ext i j
  fin_cases i <;> fin_cases j <;>
    simp [F, PSing, PSing1, Matrix.one_apply, Matrix.mul_apply, Fin.sum_univ_six,
      cons_val_five, Matrix.vecHead, Matrix.vecTail] <;>
    norm_num

set_option maxHeartbeats 2000000 in
/-- The innovation covariance of `kfSing` after `predict(1)` is the zero
matrix, hence singular. -/
theorem kfSing_S_zero :
    H * (kfSing.predict 1).P * H.transpose + (kfSing.predict 1).R = 0 := by
  rw [kfSing_predict_P]
  show H * PSing1 * H.transpose + ((10 : ℝ) • 1) = 0
  ext i j
  fin_cases i <;> fin_cases j <;>
    simp [H, PSing1, Matrix.one_apply, Matrix.mul_apply, Fin.sum_univ_six,
      cons_val_five, Matrix.vecHead, Matrix.vecTail]

/-- C3: the code does not fail gracefully on a singular innovation
covariance.  On `kfSing`, a measurement one second after the last update
makes `np.linalg.inv` raise `LinAlgError` out of `update` (the `error`
result), and by then the guarded predict has already mutated the object:
its `last_time` and covariance differ from the prior state.  The claim's
required behaviour — skip the update, keep state, covariance and timestamp
unchanged, and do not raise — is violated on all counts. -/
theorem update_singular_raises :
    kfSing.update 0 0 0 1 = .error (kfSing.predict 1) ∧
    (kfSing.predict 1).last_time ≠ kfSing.last_time ∧
    (kfSing.predict 1).P 0 0 ≠ kfSing.P 0 0 := by
  have h0 : kfSing.last_time = 0 := rfl
  have hbase : kfSing.update_base 1 = kfSing.predict 1 := by
    rw [KalmanFilterLocal.update_base, h0]
    norm_num
  have hdet : (H * (kfSing.predict 1).P * H.transpose + (kfSing.predict 1).R).det = 0 := by
    rw [kfSing_S_zero]
    exact Matrix.det_zero ⟨0⟩
  refine ⟨?_, ?_, ?_⟩
  · rw [KalmanFilterLocal.update]
    simp only [hbase]
    rw [if_pos hdet]
  · show kfSing.last_time + 1 ≠ kfSing.last_time
    rw [h0]
    norm_num
  · rw [kfSing_predict_P]
    show PSing1 0 0 ≠ PSing 0 0
    show (-10 : ℝ) ≠ -10.1
    norm_num

/-- The track registry (the global `filters` dict, source line 11), modelled
as an association list with unique keys maintained by `upsert`. -/
abbrev Registry := List (String × KalmanFilterLocal)

/-- Replace the value stored under key `k` (in-place mutation of the dict
entry's object). -/
def setKey (reg : Registry) (k : String) (kf : KalmanFilterLocal) : Registry :=
  reg.map (fun p => if p.1 = k then (k, kf) else p)

/-- The arguments of one create-or-update pass over the registry, as derived
from an aircraft entry by the ingest loop (source lines 199–213). -/
structure UpsertArgs where
  icao : String
  lat : ℝ
  lon : ℝ
  alt_m : ℝ
  vx : ℝ
  vy : ℝ
  v_alt : ℝ
  callsign : String
  squawk : String
  now : ℝ

/-- The create-or-update step of the ingest loop (source lines 214–224): an
existing filter gets its callsign/squawk overwritten and `update` called (a
`LinAlgError` escaping `update` leaves the mutated object in the dict and
propagates); an absent key gets a freshly constructed filter inserted. -/
def upsert (reg : Registry) (u : UpsertArgs) : Except Registry Registry :=
  match reg.lookup u.icao with
  | some kf =>
    let kf0 := { kf with callsign := u.callsign, squawk := u.squawk }
    match kf0.update u.lat u.lon u.alt_m u.now with
    | .ok kf1 => .ok (setKey reg u.icao kf1)
    | .error kf1 => .error (setKey reg u.icao kf1)
  | none =>
    .ok (reg ++ [(u.icao,
      KalmanFilterLocal.init u.lat u.lon u.alt_m u.vx u.vy u.v_alt
        u.icao u.callsign u.squawk u.now)])

/-- One aircraft entry of an inbound JSON record; absent keys are `none`
(source lines 190–213 read them with `.get`). -/
structure Entry where
  icaoAddress : Option String := none
  latDD : Option ℝ := none
  lonDD : Option ℝ := none
  altitudeMM : Option ℝ := none
  horVelocityCMS : Option ℝ := none
  headingDE2 : Option ℝ := none
  verVelocityCMS : Option ℝ := none
  callsign : Option String := none
  squawk : Option String := none

/-- Processing of a single aircraft entry by the ingest loop (source lines
190–224): skip on missing/empty identity or missing latitude, longitude or
altitude; otherwise derive velocities from the optional speed/heading fields
and upsert. -/
def processEntry (reg : Registry) (now : ℝ) (ac : Entry) : Except Registry Registry :=
  let icao := pyUpper (ac.icaoAddress.getD "")
  if icao = "" then .ok reg
  else
    match ac.latDD, ac.lonDD, ac.altitudeMM with
    | some lat, some lon, some altitudeMM =>
      let alt_m := altitudeMM / 1000
      let speed_mps := ac.horVelocityCMS.getD 0 / 100
      let heading_deg := ac.headingDE2.getD 0 / 100
      let heading_rad := radians heading_deg
      let vx := speed_mps * Real.sin heading_rad
      let vy := speed_mps * Real.cos heading_rad
      let v_alt := ac.verVelocityCMS.getD 0 / 100
      let callsign := pyStrip (ac.callsign.getD "")
      let squawk := ac.squawk.getD ""
      upsert reg
        { icao := icao, lat := lat, lon := lon, alt_m := alt_m, vx := vx, vy := vy,
          v_alt := v_alt, callsign := callsign, squawk := squawk, now := now }
    | _, _, _ => .ok reg

/-- The per-record loop over the aircraft array (source lines 189–224); an
exception escaping one entry (the `LinAlgError` case) aborts the remaining
entries of the batch and is caught by the listener's outer handler. -/
def processEntries (reg : Registry) (now : ℝ) : List Entry → Except Registry Registry
  | [] => .ok reg
  | e :: es =>
    match processEntry reg now e with
    | .ok reg1 => processEntries reg1 now es
    | .error reg1 => .error reg1

/-- Processing of one decoded inbound record (source lines 185–224): a record
with no `"aircraft"` field is ignored, otherwise its entries are processed in
order. -/
def processRecord (reg : Registry) (now : ℝ) : Option (List Entry) → Except Registry Registry
  | none => .ok reg
  | some es => processEntries reg now es

/-- The concrete report of the specified scenario. -/
def c1_entry : Entry :=
  { icaoAddress := some "ABC123", latDD := some 52, lonDD := some 4,
    altitudeMM := some 10000000, horVelocityCMS := some 20000,
    headingDE2 := some 9000, verVelocityCMS := some 0 }

/-- The track that the first ingest of `c1_entry` creates. -/
def c1_kf : KalmanFilterLocal :=
  KalmanFilterLocal.init 52 4 (10000000 / 1000)
    (20000 / 100 * Real.sin (radians (9000 / 100)))
    (20000 / 100 * Real.cos (radians (9000 / 100)))
    (0 / 100) "ABC123" "" "" 0

/-- C1: the concrete scenario.  On first ingest of the report (identity
"ABC123", 52°N 4°E, 10,000,000 mm, 20,000 cm/s, 9000 centidegrees, vertical
speed 0) a new track is created whose velocity is exactly vx = 200 m/s and
vy = 0 m/s, and whose first encoded line (dt = 0, so the guarded predict is
skipped and the filter is unchanged) carries altitude 32808 ft, ground speed
389 kt, track 90°, vertical rate 0 ft/min and latitude/longitude 52/4. -/
theorem first_ingest_scenario :
    processEntry [] 0 c1_entry = .ok [("ABC123", c1_kf)] ∧
    c1_kf.state 3 = 200 ∧
    c1_kf.state 4 = 0 ∧
    alt_ft (c1_kf.state 2) = 32808 ∧
    speed_knots (c1_kf.state 3) (c1_kf.state 4) = 389 ∧
    track_int (c1_kf.state 3) (c1_kf.state 4) = 90 ∧
    vr_ft_min (c1_kf.state 5) = 0 ∧
    xy_to_latlon (c1_kf.state 0) (c1_kf.state 1) c1_kf.ref_lat c1_kf.ref_lon = (52, 4) ∧
    generate_sbs_from_filter c1_kf 0 "d" "t" =
      (String.intercalate "," (sbs_fields c1_kf "d" "t"), c1_kf) ∧
    (sbs_fields c1_kf "d" "t")[11]? = some "32808" ∧
    (sbs_fields c1_kf "d" "t")[12]? = some "389" ∧
    (sbs_fields c1_kf "d" "t")[13]? = some "90" ∧
    (sbs_fields c1_kf "d" "t")[16]? = some "0" := by
  have hrad : radians ((9000 : ℝ) / 100) = π / 2 := by
    rw [radians]; ring
  have h3 : c1_kf.state 3 = 200 := by
    show (20000 : ℝ) / 100 * Real.sin (radians (9000 / 100)) = 200
    rw [hrad, Real.sin_pi_div_two]; norm_num
  have h4 : c1_kf.state 4 = 0 := by
    show (20000 : ℝ) / 100 * Real.cos (radians (9000 / 100)) = 0
    rw [hrad, Real.cos_pi_div_two]; norm_num
  have halt : alt_ft (c1_kf.state 2) = 32808 := by
    show alt_ft ((10000000 : ℝ) / 1000) = 32808
    rw [alt_ft]
    exact pyRound_eq (by norm_num) (by norm_num)
  have hspd : speed_knots (c1_kf.state 3) (c1_kf.state 4) = 389 := by
    rw [h3, h4, speed_knots, hypot]
    have hsq : (200 : ℝ) ^ 2 + 0 ^ 2 = 200 ^ 2 := by norm_num
    rw [hsq, Real.sqrt_sq (by norm_num : (0 : ℝ) ≤ 200)]
    exact pyRound_eq (by norm_num) (by norm_num)
  have hat : atan2 200 0 = π / 2 := by
    rw [atan2]
    norm_num
  have hdeg : degrees (π / 2) = 90 := by
    rw [degrees]
    field_simp
    ring
  have htrk : track_int (c1_kf.state 3) (c1_kf.state 4) = 90 := by
    rw [h3, h4]
    show pyRound (if degrees (atan2 200 0) < 0 then degrees (atan2 200 0) + 360
      else degrees (atan2 200 0)) = 90
    rw [hat, hdeg, if_neg (by norm_num : ¬ (90 : ℝ) < 0)]
    exact pyRound_eq (by norm_num) (by norm_num)
  have hvr : vr_ft_min (c1_kf.state 5) = 0 := by
    show vr_ft_min ((0 : ℝ) / 100) = 0
    rw [vr_ft_min]
    have : (0 : ℝ) / 100 * 196.850394 = 0 := by norm_num
    rw [this]
    exact pyRound_eq (by norm_num) (by norm_num)
  have h0 : c1_kf.state 0 = 0 := by
    show ((4 : ℝ) - 4) * (111320 * Real.cos (radians 52)) = 0
    simp
  have h1 : c1_kf.state 1 = 0 := by
    show ((52 : ℝ) - 52) * 110574 = 0
    simp
  have hll : xy_to_latlon (c1_kf.state 0) (c1_kf.state 1) c1_kf.ref_lat c1_kf.ref_lon
      = (52, 4) := by
    rw [h0, h1]
    show ((0 : ℝ) / 110574 + 52, (0 : ℝ) / (111320 * Real.cos (radians 52)) + 4) = (52, 4)
    norm_num
  have hgen : generate_sbs_from_filter c1_kf 0 "d" "t" =
      (String.intercalate "," (sbs_fields c1_kf "d" "t"), c1_kf) := by
    have hlast : c1_kf.last_time = 0 := rfl
    rw [generate_sbs_from_filter]
    simp [hlast]
  refine ⟨rfl, h3, h4, halt, hspd, htrk, hvr, hll, hgen, ?_, ?_, ?_, ?_⟩
  · show some (toString (alt_ft (c1_kf.state 2))) = some "32808"
    rw [halt]; rfl
  · show some (toString (speed_knots (c1_kf.state 3) (c1_kf.state 4))) = some "389"
    rw [hspd]; rfl
  · show some (toString (track_int (c1_kf.state 3) (c1_kf.state 4))) = some "90"
    rw [htrk]; rfl
  · show some (toString (vr_ft_min (c1_kf.state 5))) = some "0"
    rw [hvr]; rfl

/-- An aircraft entry lacking one of the required fields (identity, latitude,
longitude, altitude). -/
def missingRequired (ac : Entry) : Prop :=
  ac.icaoAddress = none ∨ ac.latDD = none ∨ ac.lonDD = none ∨ ac.altitudeMM = none

/-- An entry with a missing required field is skipped, leaving the registry
untouched. -/
theorem processEntry_skip (reg : Registry) (now : ℝ) (e : Entry)
    (h : missingRequired e) : processEntry reg now e = .ok reg := by
  rcases h with h | h | h | h
  · simp [processEntry, h, pyUpper]
  · rw [processEntry]
    simp only [h]
    split
    · rfl
    · rfl
  · rw [processEntry]
    simp only [h]
    split
    · rfl
    · rcases e.latDD with _ | lat <;> rfl
  · rw [processEntry]
    simp only [h]
    split
    · rfl
    · rcases e.latDD with _ | lat <;> rcases e.lonDD with _ | lon <;> rfl

/-- C6: an aircraft entry missing a required field (identity, latitude,
longitude or altitude) is skipped — the registry is unchanged by that entry
and the remaining entries of the record are still processed — and a record
with no aircraft array leaves the registry unchanged. -/
theorem ingest_skips_invalid (reg : Registry) (now : ℝ) (e : Entry)
    (pre post : List Entry) (h : missingRequired e) :
    processEntry reg now e = .ok reg ∧
    processEntries reg now (pre ++ e :: post) = processEntries reg now (pre ++ post) ∧
    processRecord reg now none = .ok reg := by
  refine ⟨processEntry_skip reg now e h, ?_, rfl⟩
  induction pre generalizing reg with
  | nil =>
    simp only [List.nil_append, processEntries, processEntry_skip reg now e h]
  | cons p ps ih =>
    simp only [List.cons_append, processEntries]
    rcases hp : processEntry reg now p with reg1 | reg1
    · rfl
    · exact ih reg1

/-- An entry with every field absent. -/
def emptyEntry : Entry := {}

/-- C6 witness: the empty entry inside a one-entry record, against the empty
registry. -/
theorem ingest_skips_invalid_witness :
    processEntry [] 0 emptyEntry = .ok [] ∧
    processEntries [] 0 ([] ++ emptyEntry :: []) = processEntries [] 0 ([] ++ []) ∧
    processRecord [] 0 none = .ok [] :=
  ingest_skips_invalid [] 0 emptyEntry [] [] (Or.inl rfl)

/-- Run the registry effect of one loop iteration: whether or not the entry's
update raised, the registry keeps the mutations made so far (the listener's
outer handler catches the exception and continues with the next datagram). -/
def runE (e : Except Registry Registry) : Registry :=
  match e with
  | .ok r => r
  | .error r => r

/-- A sequence of create-or-update passes, each applied to the registry left
by the previous one. -/
def applyUpserts (reg : Registry) : List UpsertArgs → Registry
  | [] => reg
  | u :: us => applyUpserts (runE (upsert reg u)) us

/-- Every pass in the sequence completes without an escaping exception. -/
def upsertsOk : Registry → List UpsertArgs → Prop
  | _, [] => True
  | reg, u :: us => (∃ r, upsert reg u = .ok r) ∧ upsertsOk (runE (upsert reg u)) us

/-- Number of registry entries stored under key `k`. -/
def countKey (reg : Registry) (k : String) : ℕ := reg.countP (fun p => p.1 == k)

/-- The `last_time` of the track stored under key `k`, if any. -/
def lastTimeOf (reg : Registry) (k : String) : Option ℝ :=
  (reg.lookup k).map (fun kf => kf.last_time)

/-- `setKey` does not change how many entries a key has. -/
theorem countKey_setKey (reg : Registry) (k : String) (kf : KalmanFilterLocal) :
    countKey (setKey reg k kf) k = countKey reg k := by
  induction reg with
  | nil => rfl
  | cons p ps ih =>
    by_cases h : p.1 = k <;>
      simp [setKey, countKey, List.countP_cons, h] at ih ⊢ <;>
      omega

/-- `setKey` overwrites the value found by `lookup`. -/
theorem lookup_setKey (reg : Registry) (k : String) (kf kf0 : KalmanFilterLocal)
    (h : reg.lookup k = some kf0) : (setKey reg k kf).lookup k = some kf := by
  induction reg with
  | nil => simp [List.lookup] at h
  | cons p ps ih =>
    obtain ⟨a, b⟩ := p
    simp only [setKey, List.map_cons] at ih ⊢
    by_cases hak : a = k
    · subst hak
      rw [if_pos rfl]
      simp [List.lookup]
    · have hbeq : (k == a) = false := beq_eq_false_iff_ne.mpr (fun hc => hak hc.symm)
      rw [if_neg hak]
      simp only [List.lookup, hbeq] at h ⊢
      exact ih h

/-- A key that `lookup` misses has no entries. -/
theorem countKey_of_lookup_none (reg : Registry) (k : String)
    (h : reg.lookup k = none) : countKey reg k = 0 := by
  induction reg with
  | nil => rfl
  | cons p ps ih =>
    obtain ⟨a, b⟩ := p
    by_cases hak : a = k
    · subst hak
      simp [List.lookup] at h
    · have hbeq : (k == a) = false := beq_eq_false_iff_ne.mpr (fun hc => hak hc.symm)
      have hbeq' : (a == k) = false := beq_eq_false_iff_ne.mpr hak
      simp only [List.lookup, hbeq] at h
      have h0 := ih h
      simp only [countKey, List.countP_cons] at h0 ⊢
      rw [h0]
      simp [hbeq']

/-- A key that `lookup` finds has at least one entry. -/
theorem countKey_of_lookup_some (reg : Registry) (k : String) (kf0 : KalmanFilterLocal)
    (h : reg.lookup k = some kf0) : 1 ≤ countKey reg k := by
  induction reg with
  | nil => simp [List.lookup] at h
  | cons p ps ih =>
    obtain ⟨a, b⟩ := p
    by_cases hak : a = k
    · subst hak
      simp [countKey, List.countP_cons]
    · have hbeq : (k == a) = false := beq_eq_false_iff_ne.mpr (fun hc => hak hc.symm)
      simp only [List.lookup, hbeq] at h
      have := ih h
      simp only [countKey, List.countP_cons] at this ⊢
      omega

/-- Appending a fresh pair adds one entry for its key. -/
theorem countKey_append_self (reg : Registry) (k : String) (kf : KalmanFilterLocal) :
    countKey (reg ++ [(k, kf)]) k = countKey reg k + 1 := by
  simp [countKey, List.countP_append]

/-- Lookup skips a prefix that misses the key. -/
theorem lookup_append_of_none (reg l : Registry) (k : String)
    (h : reg.lookup k = none) : (reg ++ l).lookup k = l.lookup k := by
  induction reg with
  | nil => rfl
  | cons p ps ih =>
    obtain ⟨a, b⟩ := p
    by_cases hak : a = k
    · subst hak
      simp [List.lookup] at h
    · have hbeq : (k == a) = false := beq_eq_false_iff_ne.mpr (fun hc => hak hc.symm)
      simp only [List.lookup, hbeq] at h
      simp only [List.cons_append, List.lookup, hbeq]
      exact ih h

/-- A successful `update` stamps the measurement time. -/
theorem update_ok_last_time (kf : KalmanFilterLocal) (lat lon alt_m t : ℝ)
    (kf1 : KalmanFilterLocal) (h : kf.update lat lon alt_m t = .ok kf1) :
    kf1.last_time = t := by
  rw [KalmanFilterLocal.update] at h
  split at h
  · exact Except.noConfusion h
  · cases h
    rfl

/-- One pass with key `k` on a well-formed registry leaves exactly one entry
for `k`. -/
theorem upsert_step (reg : Registry) (u : UpsertArgs) (k : String) (hk : u.icao = k)
    (hcount : countKey reg k ≤ 1) : countKey (runE (upsert reg u)) k = 1 := by
  cases hl : reg.lookup k with
  | none =>
    simp only [upsert, hk, hl, runE]
    rw [countKey_append_self, countKey_of_lookup_none reg k hl]
  | some kf =>
    have h1 := countKey_of_lookup_some reg k kf hl
    cases hu : ({ kf with callsign := u.callsign, squawk := u.squawk } :
        KalmanFilterLocal).update u.lat u.lon u.alt_m u.now with
    | ok kf1 =>
      simp only [upsert, hk, hl, hu, runE]
      rw [countKey_setKey]
      omega
    | error kf1 =>
      simp only [upsert, hk, hl, hu, runE]
      rw [countKey_setKey]
      omega

/-- A successful pass with key `k` stamps that pass's time on the stored
track. -/
theorem upsert_ok_lastTime (reg : Registry) (u : UpsertArgs) (k : String)
    (hk : u.icao = k) (r : Registry) (h : upsert reg u = .ok r) :
    lastTimeOf r k = some u.now := by
  cases hl : reg.lookup k with
  | none =>
    simp only [upsert, hk, hl] at h
    cases h
    rw [lastTimeOf, lookup_append_of_none reg _ k hl]
    simp [List.lookup, KalmanFilterLocal.init]
  | some kf =>
    cases hu : ({ kf with callsign := u.callsign, squawk := u.squawk } :
        KalmanFilterLocal).update u.lat u.lon u.alt_m u.now with
    | ok kf1 =>
      simp only [upsert, hk, hl, hu] at h
      cases h
      rw [lastTimeOf, lookup_setKey reg k kf1 kf hl]
      simp [update_ok_last_time _ _ _ _ _ kf1 hu]
    | error kf1 =>
      simp only [upsert, hk, hl, hu] at h
      exact Except.noConfusion h

/-- C9: any nonempty sequence of passes with the same identity key, run on a
registry holding at most one entry for that key and raising no exception,
ends with exactly one track under the key, stamped with the most recent
pass's timestamp. -/
theorem registry_upsert_unique (k : String) :
    ∀ (us : List UpsertArgs) (reg : Registry), us ≠ [] →
      (∀ u ∈ us, u.icao = k) → countKey reg k ≤ 1 → upsertsOk reg us →
      countKey (applyUpserts reg us) k = 1 ∧
      lastTimeOf (applyUpserts reg us) k = us.getLast?.map (fun u => u.now)
  | [], _, hne, _, _, _ => absurd rfl hne
  | [u], reg, _, hk, hcount, hok => by
    have hku : u.icao = k := hk u (List.mem_singleton.mpr rfl)
    obtain ⟨r, hr⟩ := hok.1
    have hrun : runE (upsert reg u) = r := by rw [hr]; rfl
    constructor
    · show countKey (runE (upsert reg u)) k = 1
      exact upsert_step reg u k hku hcount
    · show lastTimeOf (runE (upsert reg u)) k = some u.now
      rw [hrun]
      exact upsert_ok_lastTime reg u k hku r hr
  | u :: v :: vs, reg, _, hk, hcount, hok => by
    have hku : u.icao = k := hk u (List.mem_cons_self u _)
    have hstep : countKey (runE (upsert reg u)) k = 1 :=
      upsert_step reg u k hku hcount
    have hrest := registry_upsert_unique k (v :: vs) (runE (upsert reg u))
      (List.cons_ne_nil v vs)
      (fun w hw => hk w (List.mem_cons_of_mem u hw))
      (le_of_eq hstep) hok.2
    have happ : applyUpserts reg (u :: v :: vs) =
        applyUpserts (runE (upsert reg u)) (v :: vs) := rfl
    refine ⟨hrest.1, ?_⟩
    rw [happ, hrest.2, List.getLast?_cons_cons]

/-- A single concrete pass. -/
def c9_u1 : UpsertArgs :=
  { icao := "AB", lat := 0, lon := 0, alt_m := 0, vx := 0, vy := 0, v_alt := 0,
    callsign := "", squawk := "", now := 5 }

/-- C9 witness: one pass with key "AB" at time 5 on the empty registry. -/
theorem registry_upsert_unique_witness :
    countKey (applyUpserts [] [c9_u1]) "AB" = 1 ∧
    lastTimeOf (applyUpserts [] [c9_u1]) "AB" = some 5 :=
  registry_upsert_unique "AB" [c9_u1] []
    (by simp)
    (by
      intro u hu
      rw [List.mem_singleton] at hu
      subst hu
      rfl)
    (by simp [countKey])
    ⟨⟨_, rfl⟩, trivial⟩

/-- A subscriber connection; `ok` models whether `sendall` to it succeeds
(a pre-closed or failed socket has `ok = false`). -/
structure Client where
  id : ℕ
  ok : Bool
deriving DecidableEq

/-- Observable outcome of one fan-out cycle: the live subscriber list, the
successful deliveries in order, and the connections closed. -/
structure BroadcastResult where
  clients : List Client
  delivered : List (ℕ × String)
  closed : List ℕ
deriving DecidableEq

/-- One iteration of the fan-out loop body (source lines 263–273): try
`sendall`; on failure remove the client from the live list and close it (an
exception from `close` itself is swallowed by the inner `try`). -/
def broadcastStep (msg : String) (acc : BroadcastResult) (c : Client) : BroadcastResult :=
  if c.ok then { acc with delivered := acc.delivered ++ [(c.id, msg)] }
  else { acc with clients := acc.clients.erase c, closed := acc.closed ++ [c.id] }

/-- `broadcast` (source lines 256–273): iterate over a snapshot
(`clients[:]`) of the subscriber list, while removals act on the live list.
The function is total — no exception escapes the cycle. -/
def broadcast (cs : List Client) (msg : String) : BroadcastResult :=
  cs.foldl (broadcastStep msg) { clients := cs, delivered := [], closed := [] }

/-- Folding the loop body over clients that all accept the write only appends
their deliveries. -/
theorem foldl_broadcastStep_ok (msg : String) :
    ∀ (l : List Client) (acc : BroadcastResult), (∀ c ∈ l, c.ok = true) →
      l.foldl (broadcastStep msg) acc =
        { acc with delivered := acc.delivered ++ l.map (fun c => (c.id, msg)) } := by
  intro l
  induction l with
  | nil => intro acc _; simp
  | cons c cs ih =>
    intro acc h
    have hc : c.ok = true := h c (List.mem_cons_self c cs)
    rw [List.foldl_cons, broadcastStep, if_pos hc,
      ih _ (fun d hd => h d (List.mem_cons_of_mem c hd))]
    simp

/-- C7: a broadcast cycle over subscribers of which exactly one (`b`) fails
on write delivers the full batch to every other subscriber in order, removes
`b` from the subscriber list, closes exactly `b`, and terminates normally. -/
theorem broadcast_isolates_failure (pre post : List Client) (b : Client) (msg : String)
    (hok : ∀ c ∈ pre ++ post, c.ok = true) (hbad : b.ok = false) (hnb : b ∉ pre) :
    broadcast (pre ++ b :: post) msg =
      { clients := pre ++ post,
        delivered := (pre ++ post).map (fun c => (c.id, msg)),
        closed := [b.id] } := by
  have herase : (pre ++ b :: post).erase b = pre ++ post := by
    rw [List.erase_append_right _ hnb, List.erase_cons_head]
  rw [broadcast, List.foldl_append,
    foldl_broadcastStep_ok msg pre _ (fun c hc => hok c (List.mem_append_left _ hc)),
    List.foldl_cons, broadcastStep, hbad]
  simp only [Bool.false_eq_true, if_false]
  rw [foldl_broadcastStep_ok msg post _ (fun c hc => hok c (List.mem_append_right _ hc))]
  simp [herase, List.map_append]

/-- C7 witness: three subscribers, the middle one pre-closed. -/
theorem broadcast_isolates_failure_witness :
    broadcast [⟨1, true⟩, ⟨2, false⟩, ⟨3, true⟩] "BATCH" =
      { clients := [⟨1, true⟩, ⟨3, true⟩],
        delivered := [(1, "BATCH"), (3, "BATCH")],
        closed := [2] } :=
  broadcast_isolates_failure [⟨1, true⟩] [⟨3, true⟩] ⟨2, false⟩ "BATCH"
    (by decide) rfl (by decide)

/-- C8: the encoder emits exactly 22 comma-joined fields with the documented
constant fields (1 = "MSG", 2 = "3", 19–22 = "0"), and the prediction loop
appends exactly one line break to the joined line; the field list is a pure
function of the (predicted) filter state, so the output is one text line per
track per tick. -/
theorem encoder_line_shape (kf : KalmanFilterLocal) (t : ℝ) (d s : String) :
    (sbs_fields kf d s).length = 22 ∧
    (sbs_fields kf d s)[0]? = some "MSG" ∧
    (sbs_fields kf d s)[1]? = some "3" ∧
    (sbs_fields kf d s)[18]? = some "0" ∧
    (sbs_fields kf d s)[19]? = some "0" ∧
    (sbs_fields kf d s)[20]? = some "0" ∧
    (sbs_fields kf d s)[21]? = some "0" ∧
    prediction_encode kf t d s =
      (String.intercalate "," (sbs_fields (kf.update_base t) d s) ++ "\n",
        kf.update_base t) :=
  ⟨rfl, rfl, rfl, rfl, rfl, rfl, rfl, rfl⟩

/-- A Python float value that may be non-finite: `some x` is a finite value,
`none` stands for NaN/inf (which upstream float arithmetic can produce). -/
abbrev PFloat := Option ℝ

/-- Multiplication by a finite constant; NaN propagates. -/
def pfMul (a : PFloat) (c : ℝ) : PFloat := a.map (fun v => v * c)

/-- `math.hypot`; NaN propagates. -/
def pfHypot : PFloat → PFloat → PFloat
  | some a, some b => some (hypot a b)
  | _, _ => none

/-- The track-angle computation of source lines 126–129; NaN propagates
(every comparison against NaN is false, so the `< 0` adjustment is a no-op
and the value stays non-finite). -/
def pfTrack : PFloat → PFloat → PFloat
  | some vx, some vy =>
    some (if degrees (atan2 vx vy) < 0 then degrees (atan2 vx vy) + 360
      else degrees (atan2 vx vy))
  | _, _ => none

/-- `int(round(x))` (source lines 120, 123, 129, 131): raises
`ValueError`/`OverflowError` on a non-finite float — the only field
conversions in the encoder that can fail. -/
def pyIntRound : PFloat → Except String ℤ
  | some v => .ok (pyRound v)
  | none => .error "cannot convert non-finite float to integer"

/-- `f"{x:.5f}"` renders non-finite floats as text ("nan"/"inf") without
raising. -/
def fmt5_pf : PFloat → String
  | some v => fmt5 v
  | none => "nan"

/-- A snapshot of one track's (already predicted) state whose components may
be non-finite, plus the track metadata the encoder reads. -/
structure SnapshotPF where
  x : PFloat
  y : PFloat
  alt : PFloat
  vx : PFloat
  vy : PFloat
  v_alt : PFloat
  icao : String
  callsign : String
  squawk : String
  ref_lat : ℝ
  ref_lon : ℝ

/-- The conversion layer of `generate_sbs_from_filter` (source lines
114–163) over possibly non-finite state components.  The source has no
per-field exception handler, so the first failing conversion aborts the
whole line: this is exactly the structure of the `do` block below. -/
def encode_line_pf (tk : SnapshotPF) (date_str time_str : String) :
    Except String String := do
  let lat := tk.y.map (fun v => v / 110574 + tk.ref_lat)
  let lon := tk.x.map (fun v => v / (111320 * Real.cos (radians tk.ref_lat)) + tk.ref_lon)
  let altFt ← pyIntRound (pfMul tk.alt 3.28084)
  let spd ← pyIntRound (pfMul (pfHypot tk.vx tk.vy) 1.94384)
  let trk ← pyIntRound (pfTrack tk.vx tk.vy)
  let vr ← pyIntRound (pfMul tk.v_alt 196.850394)
  return String.intercalate ","
    [ "MSG", "3", "", "", pyUpper tk.icao, "",
      date_str, time_str, date_str, time_str,
      pyStrip tk.callsign,
      toString altFt, toString spd, toString trk,
      fmt5_pf lat, fmt5_pf lon,
      toString vr, tk.squawk,
      "0", "0", "0", "0" ]

/-- The per-track guard of the prediction loop (source lines 240–247): a
track whose line generation raises is logged and omitted from the batch; the
loop continues with the remaining tracks, appending `"\n"` to each line. -/
def prediction_pass (tks : List SnapshotPF) (date_str time_str : String) : List String :=
  tks.filterMap
    (fun tk => ((encode_line_pf tk date_str time_str).toOption).map (fun m => m ++ "\n"))

/-- A track whose altitude has become NaN. -/
def tkNaN : SnapshotPF :=
  { x := some 0, y := some 0, alt := none, vx := some 0, vy := some 0, v_alt := some 0,
    icao := "BAD", callsign := "", squawk := "", ref_lat := 0, ref_lon := 0 }

/-- A track with ordinary finite state. -/
def tkOK : SnapshotPF :=
  { x := some 0, y := some 0, alt := some 0, vx := some 0, vy := some 0, v_alt := some 0,
    icao := "OK1", callsign := "", squawk := "", ref_lat := 0, ref_lon := 0 }

/-- C4 counterexample: when the altitude conversion fails, the encoder does
not emit a line with an empty altitude field — the error escapes the encoder
and the prediction loop emits no line at all for that track. -/
theorem field_failure_aborts_line :
    encode_line_pf tkNaN "D" "T" = .error "cannot convert non-finite float to integer" ∧
    prediction_pass [tkNaN] "D" "T" = [] :=
  ⟨rfl, rfl⟩

/-- C4 (amended): a failing field conversion aborts that track's entire line
— the per-track handler in the prediction loop omits the track from the
batch — while the lines of all other tracks are unaffected. -/
theorem field_failure_isolated_per_track (pre post : List SnapshotPF) (tk : SnapshotPF)
    (d s msg : String) (h : encode_line_pf tk d s = .error msg) :
    prediction_pass (pre ++ tk :: post) d s = prediction_pass (pre ++ post) d s := by
  simp [prediction_pass, List.filterMap_append, h, Except.toOption]

/-- C4 witness: the NaN-altitude track dropped from a batch containing one
healthy track. -/
theorem field_failure_isolated_per_track_witness :
    prediction_pass ([] ++ tkNaN :: [tkOK]) "D" "T" = prediction_pass ([] ++ [tkOK]) "D" "T" :=
  field_failure_isolated_per_track [] [tkOK] tkNaN "D" "T"
    "cannot convert non-finite float to integer" rfl

end

end SBSK
